import Mathlib

/-!
Verification of the posting decision engine of the suityan agent.

The TypeScript sources are embedded shallowly:

* texts are lists of Unicode characters (`List Char`), matching the
  source's spread-based code-point handling (`[...text]`);
* machine numbers that only count are `Nat`, the energy value is `Int`,
  and every probability, ratio or elapsed-minutes value is `ℚ`;
* impure inputs (wall clock, `Math.random()` draws, file contents,
  network capabilities) are explicit parameters: each random draw is a
  separate field of the run environment, shuffles are caller-supplied
  permutations, and the generation / publish capabilities are oracles;
* fallible capabilities return `Option`, and the run is a total function
  from the environment and the loaded state to a run result recording
  the taken path, the effect counts, the persisted states and the exit
  code.
-/

/-- Mood labels, the closed union type of `AgentState.mood` in state.ts. -/
inductive Mood where
  | happy | neutral | tired | lonely | excited | angry
  | frustrated | proud | melancholy | playful | relieved | anxious
  deriving DecidableEq, Repr

/-- One recent-post record (`PostRecord` in state.ts). -/
structure PostRecord where
  text : List Char
  slot : String
  timestamp : List Char
  hasImage : Bool
  deriving DecidableEq, Repr

/-- The persisted aggregate (`AgentState` in state.ts), with every field
present.  Counters are `Nat`, energy is `Int`, nullable fields are
`Option`. -/
structure AgentState where
  mood : Mood
  energy : Int
  last_posts : List PostRecord
  today_slots_used : List String
  today_post_count : Nat
  today_goodnight_posted : Bool
  today_simple_goodnight_posted : Bool
  today_morning_posted : Bool
  today_max_posts : Nat
  today_narrative : List Char
  month_total_posts : Nat
  month_image_posts : Nat
  month_string : Option (List Char)
  last_image_date : Option (List Char)
  last_post_date : Option (List Char)
  last_post_time : Option (List Char)
  last_post_timestamp_ms : Option Int
  today_skipped : Bool
  today_skip_count : Nat
  ng_retry_count : Nat
  fallback_used_count : Nat
  created_at : Option (List Char)
  updated_at : Option (List Char)
  deriving DecidableEq, Repr

/-- A state as parsed from `state.json` before migration: the fields the
loader backfills (`loadState`'s `undefined` checks in state.ts) are
optional here.  For `last_post_timestamp_ms` the outer `Option` is
JSON absence and the inner one is an explicit `null`. -/
structure RawAgentState where
  mood : Mood
  energy : Int
  last_posts : List PostRecord
  today_slots_used : List String
  today_post_count : Nat
  today_goodnight_posted : Bool
  today_simple_goodnight_posted : Option Bool
  today_morning_posted : Option Bool
  today_max_posts : Option Nat
  today_narrative : Option (List Char)
  month_total_posts : Nat
  month_image_posts : Nat
  month_string : Option (List Char)
  last_image_date : Option (List Char)
  last_post_date : Option (List Char)
  last_post_time : Option (List Char)
  last_post_timestamp_ms : Option (Option Int)
  today_skipped : Bool
  today_skip_count : Option Nat
  ng_retry_count : Nat
  fallback_used_count : Nat
  created_at : Option (List Char)
  updated_at : Option (List Char)
  deriving DecidableEq, Repr

/-- The clock adapter output (jst.ts): civil date string, time string and
the millisecond instant, all for the fixed UTC+9 zone. -/
structure Clock where
  dateString : List Char
  timeString : List Char
  nowMs : Int
  deriving DecidableEq, Repr

/-- Timestamp string `getJSTTimestamp` in jst.ts: date, a space, time. -/
def jstTimestamp (c : Clock) : List Char :=
  c.dateString ++ ' ' :: c.timeString

/-- Date comparison `isSameJSTDay` in jst.ts: `null` and the empty string
are falsy and compare unequal, otherwise plain string equality. -/
def isSameJSTDay (today : List Char) : Option (List Char) → Bool
  | none => false
  | some d => if d = [] then false else if d = today then true else false

/-- Day-rollover block of `loadState` in state.ts, acting on the raw
parsed state: if the stored date is not today, reset the per-day fields,
re-roll the daily maximum (the roll is the `rollMax` parameter) and
restore energy to 80. -/
def dayRollover (rollMax : Nat) (today : List Char) (r : RawAgentState) : RawAgentState :=
  if isSameJSTDay today r.last_post_date then r
  else
    { r with
      today_slots_used := []
      today_post_count := 0
      today_goodnight_posted := false
      today_simple_goodnight_posted := some false
      today_morning_posted := some false
      today_skipped := false
      today_skip_count := some 0
      today_max_posts := some rollMax
      today_narrative := some []
      energy := 80 }

/-- Migration block of `loadState` in state.ts: backfill the fields that
may be absent in an old `state.json` (an absent daily maximum is
re-rolled, which is the `migMax` parameter). -/
def migrate (migMax : Nat) (r : RawAgentState) : AgentState :=
  { mood := r.mood
    energy := r.energy
    last_posts := r.last_posts
    today_slots_used := r.today_slots_used
    today_post_count := r.today_post_count
    today_goodnight_posted := r.today_goodnight_posted
    today_simple_goodnight_posted := r.today_simple_goodnight_posted.getD false
    today_morning_posted := r.today_morning_posted.getD false
    today_max_posts := r.today_max_posts.getD migMax
    today_narrative := r.today_narrative.getD []
    month_total_posts := r.month_total_posts
    month_image_posts := r.month_image_posts
    month_string := r.month_string
    last_image_date := r.last_image_date
    last_post_date := r.last_post_date
    last_post_time := r.last_post_time
    last_post_timestamp_ms := r.last_post_timestamp_ms.getD none
    today_skipped := r.today_skipped
    today_skip_count := r.today_skip_count.getD 0
    ng_retry_count := r.ng_retry_count
    fallback_used_count := r.fallback_used_count
    created_at := r.created_at
    updated_at := r.updated_at }

/-- Month-rollover block of `loadState` in state.ts: if the stored month
key differs from the current month, zero the month counters. -/
def monthRollover (currentMonth : List Char) (s : AgentState) : AgentState :=
  if s.month_string = some currentMonth then s
  else { s with month_total_posts := 0, month_image_posts := 0, month_string := some currentMonth }

/-- The pure core of `loadState` in state.ts on an existing state file:
day rollover, migration, then month rollover (the current month key is
the first seven characters of the date string, as in
`getJSTDateString().slice(0, 7)`). -/
def loadStateCore (today : List Char) (rollMax migMax : Nat) (r : RawAgentState) : AgentState :=
  monthRollover (today.take 7) (migrate migMax (dayRollover rollMax today r))

/-- View a fully formed state as a raw one (every optional field
present), which is how a state persisted by `saveState` parses back. -/
def toRaw (s : AgentState) : RawAgentState :=
  { mood := s.mood
    energy := s.energy
    last_posts := s.last_posts
    today_slots_used := s.today_slots_used
    today_post_count := s.today_post_count
    today_goodnight_posted := s.today_goodnight_posted
    today_simple_goodnight_posted := some s.today_simple_goodnight_posted
    today_morning_posted := some s.today_morning_posted
    today_max_posts := some s.today_max_posts
    today_narrative := some s.today_narrative
    month_total_posts := s.month_total_posts
    month_image_posts := s.month_image_posts
    month_string := s.month_string
    last_image_date := s.last_image_date
    last_post_date := s.last_post_date
    last_post_time := s.last_post_time
    last_post_timestamp_ms := some s.last_post_timestamp_ms
    today_skipped := s.today_skipped
    today_skip_count := some s.today_skip_count
    ng_retry_count := s.ng_retry_count
    fallback_used_count := s.fallback_used_count
    created_at := s.created_at
    updated_at := s.updated_at }

/-- The `updatedAt` stamp of `saveState` in state.ts; the file write
itself is recorded by the run result's list of persisted states. -/
def saveStamp (c : Clock) (s : AgentState) : AgentState :=
  { s with updated_at := some (jstTimestamp c) }

/-- Counter bump `incrementNgRetry` in state.ts. -/
def incrementNgRetry (s : AgentState) : AgentState :=
  { s with ng_retry_count := s.ng_retry_count + 1 }

/-- Counter bump `incrementFallbackUsed` in state.ts. -/
def incrementFallbackUsed (s : AgentState) : AgentState :=
  { s with fallback_used_count := s.fallback_used_count + 1 }

/-- Elapsed minutes `minutesSinceLastPost` in state.ts.  The source
guard `!state.last_post_timestamp_ms` treats both `null` and `0` as
absent. -/
def minutesSinceLastPost (nowMs : Int) (s : AgentState) : Option ℚ :=
  match s.last_post_timestamp_ms with
  | none => none
  | some ts => if ts = 0 then none else some (((nowMs - ts : Int) : ℚ) / (1000 * 60))

/-- The three low-energy moods of `updateStateAfterPost` in state.ts,
indexed by the uniform draw `Math.floor(Math.random() * 3)`. -/
def lowMoodAt : Fin 3 → Mood
  | 0 => .tired
  | 1 => .frustrated
  | 2 => .melancholy

/-- Narrative preview in `updateStateAfterPost` in state.ts: texts over
20 characters are cut to 20 and given an ellipsis. -/
def narrativePreview (text : List Char) : List Char :=
  if 20 < text.length then text.take 20 ++ ['…'] else text

/-- State mutation `updateStateAfterPost` in state.ts, with the clock
and the low-energy mood draw made explicit.  The sequential field
assignments of the source are independent and written as one record
update. -/
def updateStateAfterPost (c : Clock) (moodIdx : Fin 3) (s : AgentState)
    (text : List Char) (slot : String) (hasImage : Bool) : AgentState :=
  let newPost : PostRecord := ⟨text, slot, jstTimestamp c, hasImage⟩
  let newEnergy : Int := max 10 (s.energy - 10)
  { s with
    last_posts := (newPost :: s.last_posts).take 7
    today_slots_used := s.today_slots_used ++ [slot]
    today_post_count := s.today_post_count + 1
    month_total_posts := s.month_total_posts + 1
    month_image_posts := if hasImage then s.month_image_posts + 1 else s.month_image_posts
    last_image_date := if hasImage then some c.dateString else s.last_image_date
    today_goodnight_posted := if slot = "goodnight" then true else s.today_goodnight_posted
    today_simple_goodnight_posted :=
      if slot = "simple_goodnight" then true else s.today_simple_goodnight_posted
    today_morning_posted := if slot = "morning" then true else s.today_morning_posted
    last_post_date := some c.dateString
    last_post_time := some c.timeString
    last_post_timestamp_ms := some c.nowMs
    today_narrative :=
      if s.today_narrative = [] then narrativePreview text
      else s.today_narrative ++ ' ' :: '→' :: ' ' :: narrativePreview text
    energy := newEnergy
    mood :=
      if newEnergy < 20 then .tired
      else if newEnergy < 40 then lowMoodAt moodIdx
      else if slot = "night_ero" then .lonely
      else s.mood }

/-- Image decision `shouldPostImage` in state.ts against one uniform
draw.  The inlined `cur` value is `getCurrentImageRatio` of state.ts
(0 when no monthly post yet) and 0.10 is the `TARGET_RATIO` constant. -/
def shouldPostImage (draw : ℚ) (s : AgentState) : Bool :=
  let cur : ℚ :=
    if s.month_total_posts = 0 then 0
    else (s.month_image_posts : ℚ) / (s.month_total_posts : ℚ)
  if s.month_total_posts < 10 then decide (draw < (0.10 : ℚ))
  else if cur < (0.10 : ℚ) - (0.02 : ℚ) then decide (draw < (0.3 : ℚ))
  else if (0.10 : ℚ) ≤ cur then decide (draw < (0.02 : ℚ))
  else decide (draw < (0.10 : ℚ))

/-- Static configuration supplied to the engine at startup: the slot
table from `slots` config (prompt.ts `loadSlots`), the word lists from
`forbidden.txt` and `logistics_words.txt` (validate.ts `loadLines`),
and the Unicode emoji classifier used by the `countEmoji` regular
expression, treated as an opaque character predicate. -/
structure SlotCfg where
  hours : List Nat
  weight : ℚ

structure Config where
  slots : List (String × SlotCfg)
  forbiddenWords : List (List Char)
  logisticsWords : List (List Char)
  isEmoji : Char → Bool

/-- Substring test corresponding to JavaScript `String.prototype.includes`
on code-point lists: the needle occurs contiguously in the haystack. -/
def containsSub (needle haystack : List Char) : Bool :=
  decide (needle <:+: haystack)

/-- Length check `checkLength` in validate.ts: at most 140 code points. -/
def checkLength (text : List Char) : Bool :=
  decide (text.length ≤ 140)

/-- Emoji count `countEmoji` in validate.ts: the per-code-point matches
of the emoji property classes, via the configured classifier. -/
def countEmoji (cfg : Config) (text : List Char) : Nat :=
  (text.filter cfg.isEmoji).length

/-- Emoji check `checkEmoji` in validate.ts: at most two emoji. -/
def checkEmoji (cfg : Config) (text : List Char) : Bool :=
  decide (countEmoji cfg text ≤ 2)

/-- Case folding used by `checkForbiddenWords`; the configured deny list
is Japanese, on which `toLowerCase` only affects ASCII letters. -/
def lowerText (text : List Char) : List Char :=
  text.map Char.toLower

/-- Forbidden-word check `checkForbiddenWords` in validate.ts:
case-insensitive substring match, returning validity and the matches. -/
def checkForbiddenWords (cfg : Config) (text : List Char) : Bool × List (List Char) :=
  let found := cfg.forbiddenWords.filter (fun w => containsSub (lowerText w) (lowerText text))
  (found.isEmpty, found)

/-- Domain-vocabulary check `checkLogisticsWord` in validate.ts:
case-sensitive substring match, at least one configured term required. -/
def checkLogisticsWord (cfg : Config) (text : List Char) : Bool × List (List Char) :=
  let found := cfg.logisticsWords.filter (fun w => containsSub w text)
  (!found.isEmpty, found)

/-- Whitespace class of the JavaScript `\s` escape, which `getBigrams`
strips before forming bigrams. -/
def isJsWhitespace (c : Char) : Bool :=
  c ∈ [' ', '\t', '\n', '\r', '\x0b', '\x0c', ' ', ' ',
       ' ', ' ', ' ', ' ', '　', '﻿']
  || (' ' ≤ c && c ≤ ' ')

/-- Character-bigram set `getBigrams` in validate.ts: adjacent pairs of
the whitespace-stripped text, as a finite set. -/
def getBigrams (text : List Char) : Finset (Char × Char) :=
  let chars := text.filter (fun c => !isJsWhitespace c)
  (chars.zip chars.tail).toFinset

/-- Jaccard similarity `jaccardSimilarity` in validate.ts: intersection
size over union size, 0 when the union is empty. -/
def jaccardSimilarity (s1 s2 : Finset (Char × Char)) : ℚ :=
  if (s1 ∪ s2).card = 0 then 0
  else ((s1 ∩ s2).card : ℚ) / ((s1 ∪ s2).card : ℚ)

/-- Result record of `checkSimilarity` in validate.ts. -/
structure SimilarityResult where
  valid : Bool
  maxSimilarity : ℚ
  mostSimilar : Option (List Char)
  deriving DecidableEq, Repr

/-- Similarity check `checkSimilarity` in validate.ts: the running
maximum over the recent posts, updated on strict increase, compared to
the threshold (0.6 by default at the call sites of validateTweet). -/
def checkSimilarity (text : List Char) (recentPosts : List PostRecord)
    (threshold : ℚ) : SimilarityResult :=
  if recentPosts = [] then ⟨true, 0, none⟩
  else
    let nb := getBigrams text
    let r := recentPosts.foldl
      (fun acc post =>
        let sim := jaccardSimilarity nb (getBigrams post.text)
        if acc.1 < sim then (sim, some post.text) else acc)
      ((0 : ℚ), (none : Option (List Char)))
    ⟨decide (r.1 ≤ threshold), r.1, r.2⟩

/-- One failing check of `validateTweet`, abstracting the Japanese
message strings of validate.ts by their content. -/
inductive ValidationError where
  | lengthExceeded (n : Nat)
  | emojiExceeded (n : Nat)
  | forbiddenFound (found : List (List Char))
  | logisticsMissing
  | tooSimilar (maxSimilarity : ℚ)
  deriving DecidableEq, Repr

/-- Result record of `validateTweet` in validate.ts. -/
structure ValidationResult where
  valid : Bool
  errors : List ValidationError
  deriving DecidableEq, Repr

/-- Aggregate validation `validateTweet` in validate.ts: length, emoji,
forbidden vocabulary, domain vocabulary and similarity (threshold 0.6),
in source order; valid iff no error.  The function has no slot
parameter: every check, the domain-vocabulary one included, runs for
every candidate text. -/
def validateTweet (cfg : Config) (text : List Char)
    (recentPosts : List PostRecord) : ValidationResult :=
  let e1 : List ValidationError :=
    if checkLength text then [] else [.lengthExceeded text.length]
  let e2 : List ValidationError :=
    if checkEmoji cfg text then [] else [.emojiExceeded (countEmoji cfg text)]
  let e3 : List ValidationError :=
    if (checkForbiddenWords cfg text).1 then []
    else [.forbiddenFound (checkForbiddenWords cfg text).2]
  let e4 : List ValidationError :=
    if (checkLogisticsWord cfg text).1 then [] else [.logisticsMissing]
  let e5 : List ValidationError :=
    if (checkSimilarity text recentPosts (0.6 : ℚ)).valid then []
    else [.tooSimilar (checkSimilarity text recentPosts (0.6 : ℚ)).maxSimilarity]
  let errors := e1 ++ e2 ++ e3 ++ e4 ++ e5
  ⟨errors.isEmpty, errors⟩

/-- Slot keyword table of `getFallbackTweetForSlot` in fallback.ts;
slots outside the table get the empty keyword list. -/
def slotKeywords (slot : String) : List (List Char) :=
  if slot = "delivery" then ["配達".toList, "荷物".toList, "不在票".toList, "件数".toList]
  else if slot = "commute" then ["帰".toList, "終わり".toList, "返却".toList]
  else if slot = "night_ero" then ["夜".toList, "寂しい".toList, "癒".toList]
  else if slot = "goodnight" then ["おやすみ".toList, "寝".toList, "明日".toList]
  else []

/-- Keyword filtering of `getFallbackTweetForSlot` in fallback.ts: keep
the pool entries containing a slot keyword, or the whole pool when the
slot has no keywords or nothing matches. -/
def fallbackCandidates (pool : List (List Char)) (slot : String) : List (List Char) :=
  if slotKeywords slot = [] then pool
  else if pool.filter (fun t => (slotKeywords slot).any (fun kw => containsSub kw t)) = []
    then pool
  else pool.filter (fun t => (slotKeywords slot).any (fun kw => containsSub kw t))

/-- Final pick of `getFallbackTweetForSlot` in fallback.ts: the first
shuffled candidate passing the similarity screen at threshold 0.5,
else the first shuffled candidate outright (`null` only through the
final falsy coercion `shuffled[0] || null`). -/
def fallbackPick (shuffled : List (List Char)) (recent : List PostRecord) : Option (List Char) :=
  match shuffled.find? (fun c => (checkSimilarity c recent (0.5 : ℚ)).valid) with
  | some c => some c
  | none =>
    match shuffled with
    | [] => none
    | c :: _ => if c = [] then none else some c

def getFallbackTweetForSlot (pool : List (List Char))
    (shuffle : List (List Char) → List (List Char))
    (slot : String) (recentPosts : List PostRecord) : Option (List Char) :=
  if pool = [] then none
  else fallbackPick (shuffle (fallbackCandidates pool slot)) recentPosts

/-- The mandatory hashtag constant `REQUIRED_HASHTAG` in hashtags.ts. -/
def requiredHashtag : List Char := "#軽貨物".toList

/-- Hashtag selection `getRandomHashtags` in hashtags.ts: always the
mandatory tag, plus at most one further tag from the configured pool
(minus the mandatory word) when the pool is non-empty and the 50% coin
comes up; the pick is the head of a caller-supplied shuffle.  The
`count` parameter of the source is unused by its body and omitted. -/
def getRandomHashtags (pool : List (List Char)) (coin : Bool)
    (shuffle : List (List Char) → List (List Char)) : List (List Char) :=
  if pool.filter (fun t => t ≠ "軽貨物".toList) ≠ [] ∧ coin = true then
    match shuffle (pool.filter (fun t => t ≠ "軽貨物".toList)) with
    | [] => [requiredHashtag]
    | t :: _ => [requiredHashtag, '#' :: t]
  else [requiredHashtag]

/-- Hashtag append `appendHashtags` in hashtags.ts: try all chosen tags
joined by spaces after a newline, then just the first tag, then give up
and return the tweet unchanged, never exceeding `maxLength` with an
appended suffix. -/
def appendHashtags (hashtags : List (List Char)) (tweet : List Char)
    (maxLength : Nat) : List Char :=
  match hashtags with
  | [] => tweet
  | t :: ts =>
    let combined := tweet ++ '\n' :: List.intercalate [' '] (t :: ts)
    if combined.length ≤ maxLength then combined
    else
      let withSingle := tweet ++ '\n' :: t
      if withSingle.length ≤ maxLength then withSingle
      else tweet

/-- Weighted pick loop of `determineSlot` in prompt.ts: subtract each
candidate's weight from the drawn value and return the first candidate
taking it to zero or below. -/
def weightedPickAux : ℚ → List (String × SlotCfg) → Option String
  | _, [] => none
  | acc, (name, c) :: rest =>
    if acc - c.weight ≤ 0 then some name else weightedPickAux (acc - c.weight) rest

/-- Slot selection `determineSlot` in prompt.ts: the morning slot for
hours 6-7 when unused, then at hours 23/0 the brief night-closing slot
on a 50% coin, then the full night-closing slot, then a weighted random
choice among the configured slots matching the hour (already-posted
exclusive slots skipped), defaulting to `delivery` when no slot
matches.  `coin` is the 50% draw and `draw` the uniform value in [0,1)
for the weighted choice. -/
def determineSlot (cfg : Config) (hour : Nat) (coin : Bool) (draw : ℚ)
    (s : AgentState) : String :=
  if s.today_morning_posted = false ∧ (hour = 6 ∨ hour = 7) then "morning"
  else if s.today_simple_goodnight_posted = false ∧ s.today_goodnight_posted = false
      ∧ (hour = 23 ∨ hour = 0) ∧ coin = true then "simple_goodnight"
  else if s.today_goodnight_posted = false ∧ s.today_simple_goodnight_posted = false
      ∧ (hour = 23 ∨ hour = 0) then "goodnight"
  else
    let candidates := cfg.slots.filter (fun p =>
      decide (¬(p.1 = "goodnight" ∧ s.today_goodnight_posted = true)
        ∧ ¬(p.1 = "simple_goodnight" ∧ s.today_simple_goodnight_posted = true)
        ∧ ¬(p.1 = "morning" ∧ s.today_morning_posted = true)
        ∧ hour ∈ p.2.hours))
    match candidates with
    | [] => "delivery"
    | c0 :: _ =>
      let total := (candidates.map (fun c => c.2.weight)).sum
      match weightedPickAux (draw * total) candidates with
      | some name => name
      | none => c0.1

/-- Pacing probability `calculateSkipProbability` in run.ts: 5% before
the first ever post, 3% under 60 minutes since the last post, 8% under
120 minutes, 20% beyond that while fewer than two skips happened today,
and back to 5% afterwards. -/
def calculateSkipProbability (nowMs : Int) (s : AgentState) : ℚ :=
  match minutesSinceLastPost nowMs s with
  | none => (0.05 : ℚ)
  | some m =>
    if m < 60 then (0.03 : ℚ)
    else if m < 120 then (0.08 : ℚ)
    else if s.today_skip_count < 2 then (0.20 : ℚ)
    else (0.05 : ℚ)

/-- The `skipExemptSlots` set of run.ts. -/
def skipExemptSlots : List String := ["goodnight", "simple_goodnight", "morning"]

/-- The `noImageSlots` set of run.ts. -/
def noImageSlots : List String := ["morning", "simple_goodnight"]

/-- The pacing-skip decision of run.ts `main`: exempt slots are never
skipped; otherwise skip when the uniform draw falls under the
computed probability. -/
def pacingSkip (slot : String) (draw prob : ℚ) : Bool :=
  if slot ∈ skipExemptSlots then false else decide (draw < prob)

/-- The retry budget constant of run.ts. -/
def MAX_GENERATION_RETRIES : Nat := 2

/-- One answer of the generation capability (`generateTweet` in
openai.ts): a candidate text and a mood label. -/
structure GenResult where
  tweet : List Char
  mood : Mood
  deriving DecidableEq, Repr

/-- Result of the generation loop of run.ts `main`: the state after the
loop (mood adopted on success, NG retries counted on validation
failure), the accepted text if any, and the number of generator
invocations made. -/
structure GenOutcome where
  state : AgentState
  text : Option (List Char)
  attempts : Nat
  deriving DecidableEq, Repr

/-- Generation loop of run.ts `main`: up to `fuel` attempts starting at
index `i`, each asking the generation oracle (`none` is a thrown
capability error, retried without counting an NG), validating a
returned text against the recent posts, accepting on success and
adopting the generator's mood, and counting an NG retry on validation
failure.  Prompt construction (`buildPrompt`, `buildSelfReplyPrompt`,
the weather text) only shapes the oracle's input and is absorbed into
the oracle. -/
def genLoop (cfg : Config) (gen : Nat → Option GenResult) :
    Nat → Nat → AgentState → GenOutcome
  | _, 0, s => ⟨s, none, 0⟩
  | i, fuel + 1, s =>
    match gen i with
    | none =>
      let r := genLoop cfg gen (i + 1) fuel s
      ⟨r.state, r.text, r.attempts + 1⟩
    | some g =>
      if (validateTweet cfg g.tweet s.last_posts).valid then
        ⟨{ s with mood := g.mood }, some g.tweet, 1⟩
      else
        let r := genLoop cfg gen (i + 1) fuel (incrementNgRetry s)
        ⟨r.state, r.text, r.attempts + 1⟩

/-- How a single run ended. -/
inductive RunPath where
  | quotaLimit | skipped | noFallback | dryRun | published | publishFailed
  deriving DecidableEq, Repr

/-- Observable outcome of one run of `main` in run.ts: the path taken,
how many generator and publish calls were made, every state passed to
`saveState` in order, the process exit code, and the final in-memory
state. -/
structure RunResult where
  path : RunPath
  genAttempts : Nat
  publishCalls : Nat
  saves : List AgentState
  exitCode : Nat
  finalState : AgentState
  deriving DecidableEq, Repr

/-- The run environment: clock, hour, every random draw, the external
asset/capability answers and the configured pools of run.ts `main`. -/
structure RunEnv where
  clock : Clock
  hour : Nat
  slotCoin : Bool
  slotDraw : ℚ
  skipDraw : ℚ
  imageDraw : ℚ
  availableImage : Option (List Char)
  openAIAvailable : Bool
  gen : Nat → Option GenResult
  fallbackPool : List (List Char)
  fallbackShuffle : List (List Char) → List (List Char)
  hashtagPool : List (List Char)
  hashtagCoin : Bool
  hashtagShuffle : List (List Char) → List (List Char)
  lowMoodIdx : Fin 3
  xApiAvailable : Bool
  uploadOk : Bool
  publishOk : Bool

/-- Publish step of run.ts `main` from the point where a text is
finalized: without credentials the dry path logs and mutates nothing;
otherwise the optional media upload and the create-post call happen
inside one try block whose failure persists the current state and
exits with code 1, and whose success applies `updateStateAfterPost`
(with `hasImage` true exactly when a media id was obtained) and
persists the updated state.  The posted string is
`appendHashtags (getRandomHashtags ...) text 140`, consumed only by
the external publish capability. -/
def publishPhase (env : RunEnv) (genAttempts : Nat) (s : AgentState)
    (text : List Char) (slot : String) (imagePath : Option (List Char)) : RunResult :=
  if env.xApiAvailable = false then ⟨.dryRun, genAttempts, 0, [], 0, s⟩
  else
    match imagePath with
    | some _ =>
      if env.uploadOk = false then
        ⟨.publishFailed, genAttempts, 0, [saveStamp env.clock s], 1, saveStamp env.clock s⟩
      else if env.publishOk = false then
        ⟨.publishFailed, genAttempts, 1, [saveStamp env.clock s], 1, saveStamp env.clock s⟩
      else
        let s2 := saveStamp env.clock
          (updateStateAfterPost env.clock env.lowMoodIdx s text slot true)
        ⟨.published, genAttempts, 1, [s2], 0, s2⟩
    | none =>
      if env.publishOk = false then
        ⟨.publishFailed, genAttempts, 1, [saveStamp env.clock s], 1, saveStamp env.clock s⟩
      else
        let s2 := saveStamp env.clock
          (updateStateAfterPost env.clock env.lowMoodIdx s text slot false)
        ⟨.published, genAttempts, 1, [s2], 0, s2⟩

/-- One run of `main` in run.ts over a loaded state: the daily quota
gate, slot selection, the pacing skip (persisting the skip counters),
the image decision, the generation loop, the fallback pool (aborting
with a persisted state when it is empty) and the publish step.  The
weather fetch influences only the prompt and is absorbed into the
generation oracle. -/
def mainRun (cfg : Config) (env : RunEnv) (st : AgentState) : RunResult :=
  if st.today_max_posts ≤ st.today_post_count then
    ⟨.quotaLimit, 0, 0, [], 0, st⟩
  else
    let slot := determineSlot cfg env.hour env.slotCoin env.slotDraw st
    if pacingSkip slot env.skipDraw (calculateSkipProbability env.clock.nowMs st) then
      let s1 := saveStamp env.clock
        { st with today_skipped := true, today_skip_count := st.today_skip_count + 1 }
      ⟨.skipped, 0, 0, [s1], 0, s1⟩
    else
      let wantImage := decide (slot ∉ noImageSlots) && shouldPostImage env.imageDraw st
      let imagePath := if wantImage then env.availableImage else none
      let g := if env.openAIAvailable
        then genLoop cfg env.gen 0 (MAX_GENERATION_RETRIES + 1) st
        else ⟨st, none, 0⟩
      match g.text with
      | some t => publishPhase env g.attempts g.state t slot imagePath
      | none =>
        match getFallbackTweetForSlot env.fallbackPool env.fallbackShuffle slot g.state.last_posts with
        | some t => publishPhase env g.attempts (incrementFallbackUsed g.state) t slot imagePath
        | none =>
          let s1 := saveStamp env.clock g.state
          ⟨.noFallback, g.attempts, 0, [s1], 0, s1⟩

/-- Sample clock used by concrete witnesses. -/
def sampleClock : Clock := ⟨"2026-01-02".toList, "12:00:00".toList, 9600000⟩

/-- Sample empty configuration used by concrete witnesses. -/
def sampleConfig : Config := ⟨[], [], [], fun _ => false⟩

/-- Sample run environment used by concrete witnesses: no capabilities,
every draw too large to trigger a probabilistic branch. -/
def sampleEnv : RunEnv :=
  { clock := sampleClock
    hour := 12
    slotCoin := false
    slotDraw := 0
    skipDraw := 1
    imageDraw := 1
    availableImage := none
    openAIAvailable := false
    gen := fun _ => none
    fallbackPool := []
    fallbackShuffle := id
    hashtagPool := []
    hashtagCoin := false
    hashtagShuffle := id
    lowMoodIdx := 0
    xApiAvailable := false
    uploadOk := false
    publishOk := false }

/-- Sample state at its daily quota, used by concrete witnesses. -/
def sampleState : AgentState :=
  { mood := .neutral
    energy := 70
    last_posts := []
    today_slots_used := []
    today_post_count := 5
    today_goodnight_posted := false
    today_simple_goodnight_posted := false
    today_morning_posted := false
    today_max_posts := 5
    today_narrative := []
    month_total_posts := 0
    month_image_posts := 0
    month_string := none
    last_image_date := none
    last_post_date := none
    last_post_time := none
    last_post_timestamp_ms := none
    today_skipped := false
    today_skip_count := 0
    ng_retry_count := 0
    fallback_used_count := 0
    created_at := none
    updated_at := none }

/-- C1: for every state at or over its daily quota, the run stops right
after loading: no generator call, no publish call, nothing persisted,
and the final state is the loaded state unchanged. -/
theorem quota_gate_no_effects (cfg : Config) (env : RunEnv) (st : AgentState)
    (h : st.today_max_posts ≤ st.today_post_count) :
    mainRun cfg env st = ⟨.quotaLimit, 0, 0, [], 0, st⟩ := by
  unfold mainRun
  rw [if_pos h]

/-- Witness for C1 on a concrete state with the quota reached. -/
theorem quota_gate_no_effects_witness :
    mainRun sampleConfig sampleEnv sampleState = ⟨.quotaLimit, 0, 0, [], 0, sampleState⟩ :=
  quota_gate_no_effects sampleConfig sampleEnv sampleState (by decide)

/-- Helper: the publish phase never produces the pacing-skip path. -/
theorem publishPhase_path_ne_skipped (env : RunEnv) (gA : Nat) (s : AgentState)
    (text : List Char) (slot : String) (ip : Option (List Char)) :
    (publishPhase env gA s text slot ip).path ≠ .skipped := by
  unfold publishPhase
  split
  · simp
  · split
    · split_ifs <;> simp
    · split_ifs <;> simp

/-- Helper: `calculateSkipProbability` on a present elapsed-minutes
value reduces to its branch table. -/
theorem calcSkip_some (nowMs : Int) (st : AgentState) (m : ℚ)
    (hm : minutesSinceLastPost nowMs st = some m) :
    calculateSkipProbability nowMs st =
      (if m < 60 then (0.03 : ℚ) else if m < 120 then (0.08 : ℚ)
       else if st.today_skip_count < 2 then (0.20 : ℚ) else (0.05 : ℚ)) := by
  unfold calculateSkipProbability
  rw [hm]

/-- C3: the pacing table of `calculateSkipProbability` — 5% before the
first ever post, 3% under 60 minutes, 8% under 120 minutes, 20% from
120 minutes while fewer than two skips happened today, 5% afterwards —
and the run never takes the pacing-skip branch when the selected slot
is one of morning, goodnight, simple_goodnight. -/
theorem skip_probability_table (nowMs : Int) (cfg : Config) (env : RunEnv) (st : AgentState) :
    (minutesSinceLastPost nowMs st = none → calculateSkipProbability nowMs st = (0.05 : ℚ))
    ∧ (∀ m : ℚ, minutesSinceLastPost nowMs st = some m →
        ((m < 60 → calculateSkipProbability nowMs st = (0.03 : ℚ))
          ∧ (60 ≤ m → m < 120 → calculateSkipProbability nowMs st = (0.08 : ℚ))
          ∧ (120 ≤ m → st.today_skip_count < 2 → calculateSkipProbability nowMs st = (0.20 : ℚ))
          ∧ (120 ≤ m → 2 ≤ st.today_skip_count → calculateSkipProbability nowMs st = (0.05 : ℚ))))
    ∧ (determineSlot cfg env.hour env.slotCoin env.slotDraw st ∈ skipExemptSlots →
        (mainRun cfg env st).path ≠ .skipped) := by
  refine ⟨?_, ?_, ?_⟩
  · intro h
    simp [calculateSkipProbability, h]
  · intro m hm
    rw [calcSkip_some nowMs st m hm]
    refine ⟨?_, ?_, ?_, ?_⟩ <;> intros <;> split_ifs <;> first | rfl | linarith
  · intro hmem
    by_cases hq : st.today_max_posts ≤ st.today_post_count
    · simp [mainRun, hq]
    · have hps : pacingSkip (determineSlot cfg env.hour env.slotCoin env.slotDraw st)
          env.skipDraw (calculateSkipProbability env.clock.nowMs st) = false := by
        simp [pacingSkip, hmem]
      simp only [mainRun, if_neg hq, hps, Bool.false_eq_true, if_false]
      split
      · apply publishPhase_path_ne_skipped
      · split
        · apply publishPhase_path_ne_skipped
        · simp

/-- C3 witness inputs: a state 150 minutes past its last post with no
skip today. -/
def sampleStateFar : AgentState :=
  { sampleState with
    today_post_count := 0
    last_post_timestamp_ms := some 600000 }

/-- C3 witness inputs: the environment at hour 6, where the morning
slot is selected. -/
def sampleEnvMorning : RunEnv := { sampleEnv with hour := 6 }

/-- Witness for C3: at 150 elapsed minutes with no skip today the
probability is 20%, and a run with the morning slot selected does not
end on the pacing-skip path. -/
theorem skip_probability_table_witness :
    calculateSkipProbability 9600000 sampleStateFar = (0.20 : ℚ)
    ∧ (mainRun sampleConfig sampleEnvMorning sampleStateFar).path ≠ .skipped :=
  ⟨((skip_probability_table 9600000 sampleConfig sampleEnvMorning sampleStateFar).2.1
      150 (by norm_num [minutesSinceLastPost, sampleStateFar, sampleState])).2.2.1
      (by norm_num) (by decide),
   (skip_probability_table 9600000 sampleConfig sampleEnvMorning sampleStateFar).2.2
      (by decide)⟩

/-- Helper: the Jaccard similarity of two finite bigram sets is
nonnegative. -/
theorem jaccard_nonneg (s1 s2 : Finset (Char × Char)) :
    0 ≤ jaccardSimilarity s1 s2 := by
  unfold jaccardSimilarity
  split
  · exact le_refl 0
  · positivity

/-- Helper: the Jaccard similarity of two finite bigram sets is at
most one. -/
theorem jaccard_le_one (s1 s2 : Finset (Char × Char)) :
    jaccardSimilarity s1 s2 ≤ 1 := by
  unfold jaccardSimilarity
  split
  · exact zero_le_one
  · rename_i h
    rw [div_le_one (by positivity)]
    exact_mod_cast Finset.card_le_card Finset.inter_subset_union

/-- Helper: the Jaccard similarity of a non-empty bigram set with
itself is one. -/
theorem jaccard_self (s : Finset (Char × Char)) (h : s ≠ ∅) :
    jaccardSimilarity s s = 1 := by
  unfold jaccardSimilarity
  rw [Finset.union_self, Finset.inter_self]
  rw [if_neg (by simpa [Finset.card_eq_zero] using h)]
  exact div_self (by exact_mod_cast fun hc => h (Finset.card_eq_zero.mp hc))

/-- C4 (amended): the computed bigram Jaccard similarity of any two
texts lies in [0,1]; a text whose whitespace-stripped form still has at
least one bigram has self-similarity one (texts shorter than two
non-whitespace characters get self-similarity zero through the
empty-union case); and the similarity check against an empty
recent-post history is valid with maximum similarity zero and no most
similar text. -/
theorem bigram_similarity_bounds :
    (∀ t1 t2 : List Char, 0 ≤ jaccardSimilarity (getBigrams t1) (getBigrams t2)
      ∧ jaccardSimilarity (getBigrams t1) (getBigrams t2) ≤ 1)
    ∧ (∀ t : List Char, getBigrams t ≠ ∅ →
        jaccardSimilarity (getBigrams t) (getBigrams t) = 1)
    ∧ (∀ (t : List Char) (th : ℚ), checkSimilarity t [] th = ⟨true, 0, none⟩) :=
  ⟨fun t1 t2 => ⟨jaccard_nonneg (getBigrams t1) (getBigrams t2),
      jaccard_le_one (getBigrams t1) (getBigrams t2)⟩,
   fun t h => jaccard_self (getBigrams t) h,
   fun _ _ => rfl⟩

/-- Counterexample to C4 as stated: the single-character text has an
empty bigram set, so its similarity with itself is zero, not one. -/
theorem bigram_self_similarity_counterexample :
    jaccardSimilarity (getBigrams ("あ".toList)) (getBigrams ("あ".toList)) ≠ 1 := by
  decide

/-- Witness for C4 (amended) on a four-character text. -/
theorem bigram_similarity_bounds_witness :
    jaccardSimilarity (getBigrams ("はいたつ".toList)) (getBigrams ("はいたつ".toList)) = 1 :=
  bigram_similarity_bounds.2.1 ("はいたつ".toList) (by decide)

/-- Configuration for the C5 evaluation: the domain list carries one
term, nothing is forbidden, no character counts as an emoji. -/
def sampleValidateConfig : Config := ⟨[], [], ["配達".toList], fun _ => false⟩

/-- A short morning-style candidate with no domain term, as the ≤15
character morning/brief-closing templates of prompt.ts produce. -/
def morningShortText : List Char := "おはよー".toList

/-- C5 (code evaluation): `validateTweet` takes no slot parameter and
applies the domain-vocabulary check to every candidate, so a short
morning-style text with no configured domain term fails validation on
exactly that ground — even though run.ts passes a slot argument to it
and the morning/brief-closing templates require no domain vocabulary. -/
theorem validate_no_slot_exemption :
    validateTweet sampleValidateConfig morningShortText [] = ⟨false, [.logisticsMissing]⟩
    ∧ (checkLogisticsWord sampleValidateConfig morningShortText).1 = false := by
  decide

/-- Helper: loading never changes the stored last-post date (only a
post does, through `updateStateAfterPost`). -/
theorem loadStateCore_last_post_date (today : List Char) (rollMax migMax : Nat)
    (r : RawAgentState) :
    (loadStateCore today rollMax migMax r).last_post_date = r.last_post_date := by
  unfold loadStateCore monthRollover migrate dayRollover
  split <;> split <;> rfl

/-- Helper: after a load the stored month key is always the current
month. -/
theorem loadStateCore_month_string (today : List Char) (rollMax migMax : Nat)
    (r : RawAgentState) :
    (loadStateCore today rollMax migMax r).month_string = some (today.take 7) := by
  unfold loadStateCore monthRollover
  split
  · rename_i h
    exact h
  · rfl

/-- Helper: when the stored date is not today, a load resets every
per-day field, re-rolls the daily maximum and restores energy to 80. -/
theorem loadStateCore_rollover_fields (today : List Char) (rollMax migMax : Nat)
    (r : RawAgentState) (h : isSameJSTDay today r.last_post_date = false) :
    (loadStateCore today rollMax migMax r).today_post_count = 0
    ∧ (loadStateCore today rollMax migMax r).today_slots_used = []
    ∧ (loadStateCore today rollMax migMax r).today_goodnight_posted = false
    ∧ (loadStateCore today rollMax migMax r).today_simple_goodnight_posted = false
    ∧ (loadStateCore today rollMax migMax r).today_morning_posted = false
    ∧ (loadStateCore today rollMax migMax r).today_skipped = false
    ∧ (loadStateCore today rollMax migMax r).today_skip_count = 0
    ∧ (loadStateCore today rollMax migMax r).today_narrative = []
    ∧ (loadStateCore today rollMax migMax r).today_max_posts = rollMax
    ∧ (loadStateCore today rollMax migMax r).energy = 80 := by
  unfold loadStateCore monthRollover migrate dayRollover
  rw [h]
  split
  · rename_i hday
    simp at hday
  · split <;> simp

/-- C6: for every raw state whose stored last-post date is not the
current civil day, a load resets the daily counters, the used-slot
list, the three exclusivity flags, the skip flag and counter, clears
the narrative, and sets energy to the fixed recovery value 80,
whatever the prior energy was. -/
theorem day_rollover_resets (today : List Char) (rollMax migMax : Nat)
    (r : RawAgentState) (h : isSameJSTDay today r.last_post_date = false) :
    (loadStateCore today rollMax migMax r).today_post_count = 0
    ∧ (loadStateCore today rollMax migMax r).today_slots_used = []
    ∧ (loadStateCore today rollMax migMax r).today_goodnight_posted = false
    ∧ (loadStateCore today rollMax migMax r).today_simple_goodnight_posted = false
    ∧ (loadStateCore today rollMax migMax r).today_morning_posted = false
    ∧ (loadStateCore today rollMax migMax r).today_skipped = false
    ∧ (loadStateCore today rollMax migMax r).today_skip_count = 0
    ∧ (loadStateCore today rollMax migMax r).today_narrative = []
    ∧ (loadStateCore today rollMax migMax r).energy = 80 := by
  obtain ⟨h1, h2, h3, h4, h5, h6, h7, h8, _, h9⟩ :=
    loadStateCore_rollover_fields today rollMax migMax r h
  exact ⟨h1, h2, h3, h4, h5, h6, h7, h8, h9⟩

/-- The current civil date used by the concrete load scenarios. -/
def sampleToday : List Char := "2026-01-02".toList

/-- A raw stored state whose last post happened the previous day, with
every per-day field dirty. -/
def sampleRaw : RawAgentState :=
  { mood := .happy
    energy := 25
    last_posts := []
    today_slots_used := ["delivery"]
    today_post_count := 3
    today_goodnight_posted := true
    today_simple_goodnight_posted := some true
    today_morning_posted := some true
    today_max_posts := some 15
    today_narrative := some ("やあ".toList)
    month_total_posts := 4
    month_image_posts := 1
    month_string := none
    last_image_date := none
    last_post_date := some ("2026-01-01".toList)
    last_post_time := none
    last_post_timestamp_ms := some (some 5)
    today_skipped := true
    today_skip_count := some 2
    ng_retry_count := 1
    fallback_used_count := 1
    created_at := none
    updated_at := none }

/-- Witness for C6 on the concrete yesterday-state. -/
theorem day_rollover_resets_witness :
    (loadStateCore sampleToday 9 9 sampleRaw).today_post_count = 0
    ∧ (loadStateCore sampleToday 9 9 sampleRaw).today_slots_used = []
    ∧ (loadStateCore sampleToday 9 9 sampleRaw).today_goodnight_posted = false
    ∧ (loadStateCore sampleToday 9 9 sampleRaw).today_simple_goodnight_posted = false
    ∧ (loadStateCore sampleToday 9 9 sampleRaw).today_morning_posted = false
    ∧ (loadStateCore sampleToday 9 9 sampleRaw).today_skipped = false
    ∧ (loadStateCore sampleToday 9 9 sampleRaw).today_skip_count = 0
    ∧ (loadStateCore sampleToday 9 9 sampleRaw).today_narrative = []
    ∧ (loadStateCore sampleToday 9 9 sampleRaw).energy = 80 :=
  day_rollover_resets sampleToday 9 9 sampleRaw (by decide)

/-- Helper: migration of a fully populated raw state is the identity. -/
theorem migrate_toRaw (migMax : Nat) (s : AgentState) : migrate migMax (toRaw s) = s := rfl

/-- Helper: re-loading a state persisted the same civil day (and already
carrying the current month key) returns it unchanged. -/
theorem loadStateCore_toRaw_sameDay (today : List Char) (rollMax migMax : Nat)
    (s : AgentState) (h : isSameJSTDay today s.last_post_date = true)
    (hm : s.month_string = some (today.take 7)) :
    loadStateCore today rollMax migMax (toRaw s) = s := by
  unfold loadStateCore dayRollover
  rw [show isSameJSTDay today (toRaw s).last_post_date = true from h]
  show monthRollover (today.take 7) (migrate migMax (toRaw s)) = s
  rw [migrate_toRaw]
  unfold monthRollover
  rw [if_pos hm]

/-- C7 (amended): loading twice within the same civil day with no
intervening post yields identical per-day fields for the daily counter,
the used-slot list, the three exclusivity flags, the skip counter and
the narrative; the daily maximum also agrees whenever the stored
last-post date is the current day, but is re-rolled independently by
each load when it is not (rollover keys off the last *post* date, which
a load does not advance). -/
theorem load_twice_same_day_fields (today : List Char) (m1 m1m m2 m2m : Nat)
    (r : RawAgentState) :
    ((loadStateCore today m2 m2m (toRaw (loadStateCore today m1 m1m r))).today_post_count
        = (loadStateCore today m1 m1m r).today_post_count)
    ∧ ((loadStateCore today m2 m2m (toRaw (loadStateCore today m1 m1m r))).today_slots_used
        = (loadStateCore today m1 m1m r).today_slots_used)
    ∧ ((loadStateCore today m2 m2m (toRaw (loadStateCore today m1 m1m r))).today_goodnight_posted
        = (loadStateCore today m1 m1m r).today_goodnight_posted)
    ∧ ((loadStateCore today m2 m2m (toRaw (loadStateCore today m1 m1m r))).today_simple_goodnight_posted
        = (loadStateCore today m1 m1m r).today_simple_goodnight_posted)
    ∧ ((loadStateCore today m2 m2m (toRaw (loadStateCore today m1 m1m r))).today_morning_posted
        = (loadStateCore today m1 m1m r).today_morning_posted)
    ∧ ((loadStateCore today m2 m2m (toRaw (loadStateCore today m1 m1m r))).today_skip_count
        = (loadStateCore today m1 m1m r).today_skip_count)
    ∧ ((loadStateCore today m2 m2m (toRaw (loadStateCore today m1 m1m r))).today_narrative
        = (loadStateCore today m1 m1m r).today_narrative)
    ∧ (isSameJSTDay today r.last_post_date = true →
        (loadStateCore today m2 m2m (toRaw (loadStateCore today m1 m1m r))).today_max_posts
          = (loadStateCore today m1 m1m r).today_max_posts) := by
  by_cases h : isSameJSTDay today r.last_post_date = true
  · have hsd : isSameJSTDay today (loadStateCore today m1 m1m r).last_post_date = true := by
      rw [loadStateCore_last_post_date]
      exact h
    have heq := loadStateCore_toRaw_sameDay today m2 m2m (loadStateCore today m1 m1m r)
      hsd (loadStateCore_month_string today m1 m1m r)
    rw [heq]
    exact ⟨rfl, rfl, rfl, rfl, rfl, rfl, rfl, fun _ => rfl⟩
  · have hf : isSameJSTDay today r.last_post_date = false := by
      revert h
      cases isSameJSTDay today r.last_post_date <;> simp
    obtain ⟨a1, a2, a3, a4, a5, _, a7, a8, _, _⟩ :=
      loadStateCore_rollover_fields today m1 m1m r hf
    have hf2 : isSameJSTDay today
        (toRaw (loadStateCore today m1 m1m r)).last_post_date = false := by
      show isSameJSTDay today (loadStateCore today m1 m1m r).last_post_date = false
      rw [loadStateCore_last_post_date]
      exact hf
    obtain ⟨b1, b2, b3, b4, b5, _, b7, b8, _, _⟩ :=
      loadStateCore_rollover_fields today m2 m2m (toRaw (loadStateCore today m1 m1m r)) hf2
    refine ⟨?_, ?_, ?_, ?_, ?_, ?_, ?_, fun hc => absurd hc h⟩
    · rw [b1, a1]
    · rw [b2, a2]
    · rw [b3, a3]
    · rw [b4, a4]
    · rw [b5, a5]
    · rw [b7, a7]
    · rw [b8, a8]

/-- Counterexample to C7 as stated: with yesterday's last-post date
still stored, both same-day loads roll the day over again and re-roll
the daily maximum, so two loads with different rolls disagree on
`today_max_posts` (8 against 15 here) with no intervening post. -/
theorem load_twice_counterexample :
    (loadStateCore sampleToday 15 15 (toRaw (loadStateCore sampleToday 8 8 sampleRaw))).today_max_posts
      ≠ (loadStateCore sampleToday 8 8 sampleRaw).today_max_posts := by
  decide

/-- A raw stored state whose last post happened on the current civil
day. -/
def sampleRawToday : RawAgentState :=
  { sampleRaw with last_post_date := some ("2026-01-02".toList) }

/-- Witness for C7 (amended) on a state last posted today: the two
loads then agree even on the daily maximum. -/
theorem load_twice_same_day_fields_witness :
    (loadStateCore sampleToday 15 15 (toRaw (loadStateCore sampleToday 8 8 sampleRawToday))).today_max_posts
      = (loadStateCore sampleToday 8 8 sampleRawToday).today_max_posts :=
  (load_twice_same_day_fields sampleToday 8 8 15 15 sampleRawToday).2.2.2.2.2.2.2 (by decide)

/-- C8: applying a post keeps at most seven recent-post records with
the new record first, increments the daily and monthly counters by
exactly one, appends the 20-character (ellipsised) preview to the
narrative trail joined by an arrow separator, and sets energy to
`max 10 (energy - 10)`, which never drops below 10. -/
theorem update_after_post_invariants (c : Clock) (idx : Fin 3) (st : AgentState)
    (text : List Char) (slot : String) (img : Bool)
    (_h : st.last_posts.length ≤ 7) :
    ((updateStateAfterPost c idx st text slot img).last_posts.length ≤ 7)
    ∧ ((updateStateAfterPost c idx st text slot img).last_posts.head? =
        some ⟨text, slot, jstTimestamp c, img⟩)
    ∧ ((updateStateAfterPost c idx st text slot img).today_post_count
        = st.today_post_count + 1)
    ∧ ((updateStateAfterPost c idx st text slot img).month_total_posts
        = st.month_total_posts + 1)
    ∧ ((updateStateAfterPost c idx st text slot img).today_narrative =
        (if st.today_narrative = [] then narrativePreview text
         else st.today_narrative ++ ' ' :: '→' :: ' ' :: narrativePreview text))
    ∧ ((updateStateAfterPost c idx st text slot img).energy = max 10 (st.energy - 10))
    ∧ (10 ≤ (updateStateAfterPost c idx st text slot img).energy) := by
  refine ⟨?_, rfl, rfl, rfl, rfl, rfl, ?_⟩
  · show ((⟨text, slot, jstTimestamp c, img⟩ :: st.last_posts).take 7).length ≤ 7
    rw [List.length_take]
    exact min_le_left 7 _
  · show 10 ≤ max 10 (st.energy - 10)
    exact le_max_left 10 _

/-- Witness for C8 on a concrete one-record state. -/
theorem update_after_post_invariants_witness :
    ((updateStateAfterPost sampleClock 0 sampleState ("こんにちは".toList) "delivery" false).last_posts.length ≤ 7)
    ∧ ((updateStateAfterPost sampleClock 0 sampleState ("こんにちは".toList) "delivery" false).last_posts.head? =
        some ⟨"こんにちは".toList, "delivery", jstTimestamp sampleClock, false⟩)
    ∧ ((updateStateAfterPost sampleClock 0 sampleState ("こんにちは".toList) "delivery" false).today_post_count
        = sampleState.today_post_count + 1)
    ∧ ((updateStateAfterPost sampleClock 0 sampleState ("こんにちは".toList) "delivery" false).month_total_posts
        = sampleState.month_total_posts + 1)
    ∧ ((updateStateAfterPost sampleClock 0 sampleState ("こんにちは".toList) "delivery" false).today_narrative =
        (if sampleState.today_narrative = [] then narrativePreview ("こんにちは".toList)
         else sampleState.today_narrative ++ ' ' :: '→' :: ' ' :: narrativePreview ("こんにちは".toList)))
    ∧ ((updateStateAfterPost sampleClock 0 sampleState ("こんにちは".toList) "delivery" false).energy
        = max 10 (sampleState.energy - 10))
    ∧ (10 ≤ (updateStateAfterPost sampleClock 0 sampleState ("こんにちは".toList) "delivery" false).energy) :=
  update_after_post_invariants sampleClock 0 sampleState ("こんにちは".toList) "delivery" false
    (by decide)

/-- Helper: the final pick always yields some element of the candidate
pool, given a permuting shuffle and non-empty candidate texts. -/
theorem fallback_pick_mem (cands : List (List Char))
    (shuffled : List (List Char)) (recent : List PostRecord)
    (hperm : shuffled.Perm cands) (hcne : cands ≠ [])
    (hne : ∀ t ∈ cands, t ≠ []) :
    ∃ t, fallbackPick shuffled recent = some t ∧ t ∈ cands := by
  cases shuffled with
  | nil =>
    exact absurd (hperm.symm.eq_nil) hcne
  | cons c rest =>
    unfold fallbackPick
    cases hf : (c :: rest).find? (fun c => (checkSimilarity c recent (0.5 : ℚ)).valid) with
    | some t =>
      refine ⟨t, rfl, ?_⟩
      exact hperm.mem_iff.mp (List.mem_of_find?_eq_some hf)
    | none =>
      have hc : c ∈ cands := hperm.mem_iff.mp (List.mem_cons_self c rest)
      refine ⟨c, ?_, hc⟩
      show (if c = [] then none else some c) = some c
      rw [if_neg (hne c hc)]

/-- Helper: the keyword-filtered candidate list is a non-empty sublist
of the pool whenever the pool is non-empty. -/
theorem fallbackCandidates_spec (pool : List (List Char)) (slot : String)
    (hpool : pool ≠ []) :
    fallbackCandidates pool slot ≠ []
    ∧ ∀ t ∈ fallbackCandidates pool slot, t ∈ pool := by
  unfold fallbackCandidates
  split
  · exact ⟨hpool, fun t ht => ht⟩
  · split
    · exact ⟨hpool, fun t ht => ht⟩
    · rename_i hfil
      exact ⟨hfil, fun t ht => (List.mem_filter.mp ht).1⟩

/-- C9: for every non-empty fallback pool of non-empty texts, every
slot and every recent-post history, the fallback selector returns some
text of the pool: a slot with no keyword match falls back to the whole
pool, and when no candidate passes the 0.5 similarity screen the first
shuffled candidate is returned rather than nothing. -/
theorem fallback_nonempty (pool : List (List Char))
    (shuffle : List (List Char) → List (List Char)) (slot : String)
    (recent : List PostRecord)
    (hperm : ∀ l, (shuffle l).Perm l)
    (hpool : pool ≠ [])
    (hne : ∀ t ∈ pool, t ≠ []) :
    ∃ t, getFallbackTweetForSlot pool shuffle slot recent = some t ∧ t ∈ pool := by
  unfold getFallbackTweetForSlot
  rw [if_neg hpool]
  obtain ⟨hcne, hsub⟩ := fallbackCandidates_spec pool slot hpool
  obtain ⟨t, ht1, ht2⟩ := fallback_pick_mem (fallbackCandidates pool slot)
    (shuffle (fallbackCandidates pool slot)) recent
    (hperm (fallbackCandidates pool slot)) hcne (fun t ht => hne t (hsub t ht))
  exact ⟨t, ht1, hsub t ht2⟩

/-- Witness for C9 on a one-element pool with the identity shuffle and
a slot with no keywords. -/
theorem fallback_nonempty_witness :
    ∃ t, getFallbackTweetForSlot [("はいたつ".toList)] id "morning" [] = some t
      ∧ t ∈ [("はいたつ".toList)] :=
  fallback_nonempty [("はいたつ".toList)] id "morning" []
    (fun l => List.Perm.refl l) (by decide) (by decide)

/-- Helper: the chosen hashtag list is the mandatory tag alone or the
mandatory tag followed by one further tag. -/
theorem getRandomHashtags_shape (pool : List (List Char)) (coin : Bool)
    (shuffle : List (List Char) → List (List Char)) :
    getRandomHashtags pool coin shuffle = [requiredHashtag]
    ∨ ∃ t, getRandomHashtags pool coin shuffle = [requiredHashtag, '#' :: t] := by
  unfold getRandomHashtags
  split
  · split
    · exact Or.inl rfl
    · exact Or.inr ⟨_, rfl⟩
  · exact Or.inl rfl

/-- Helper: appending a non-empty hashtag list either leaves the tweet
unchanged or appends a newline and a suffix within the length bound. -/
theorem appendHashtags_cases (ts : List (List Char)) (tweet : List Char) (maxLength : Nat) :
    appendHashtags (requiredHashtag :: ts) tweet maxLength = tweet
    ∨ ((appendHashtags (requiredHashtag :: ts) tweet maxLength).length ≤ maxLength
       ∧ ∃ rest, appendHashtags (requiredHashtag :: ts) tweet maxLength = tweet ++ '\n' :: rest
         ∧ (rest = List.intercalate [' '] (requiredHashtag :: ts) ∨ rest = requiredHashtag)) := by
  simp only [appendHashtags]
  split_ifs with h1 h2
  · exact Or.inr ⟨h1, _, rfl, Or.inl rfl⟩
  · exact Or.inr ⟨h2, _, rfl, Or.inr rfl⟩
  · exact Or.inl rfl

/-- Helper: at the 140 limit, a tweet within 140 code points stays
within 140 code points after the hashtag step and keeps itself as a
prefix. -/
theorem appendHashtags_bound (ts : List (List Char)) (tweet : List Char)
    (hlen : tweet.length ≤ 140) :
    (appendHashtags (requiredHashtag :: ts) tweet 140).length ≤ 140
    ∧ ∃ rest, appendHashtags (requiredHashtag :: ts) tweet 140 = tweet ++ rest := by
  simp only [appendHashtags]
  split_ifs with h1 h2
  · exact ⟨h1, _, rfl⟩
  · exact ⟨h2, _, rfl⟩
  · exact ⟨hlen, [], (List.append_nil tweet).symm⟩

/-- C10: the hashtag step never breaks its length limit — the result is
the tweet unchanged, or the tweet, a newline and one or two hashtags
led by the mandatory one with total length within `maxLength`; in
particular a tweet of at most 140 code points yields a result of at
most 140 code points that starts with the tweet. -/
theorem append_hashtags_never_exceeds (pool : List (List Char)) (coin : Bool)
    (shuffle : List (List Char) → List (List Char)) (tweet : List Char) (maxLength : Nat) :
    ((getRandomHashtags pool coin shuffle).head? = some requiredHashtag
      ∧ (getRandomHashtags pool coin shuffle).length ≤ 2)
    ∧ (appendHashtags (getRandomHashtags pool coin shuffle) tweet maxLength = tweet
       ∨ ((appendHashtags (getRandomHashtags pool coin shuffle) tweet maxLength).length ≤ maxLength
          ∧ ∃ rest, appendHashtags (getRandomHashtags pool coin shuffle) tweet maxLength
              = tweet ++ '\n' :: rest
            ∧ (rest = List.intercalate [' '] (getRandomHashtags pool coin shuffle)
               ∨ rest = requiredHashtag)))
    ∧ (tweet.length ≤ 140 →
        (appendHashtags (getRandomHashtags pool coin shuffle) tweet 140).length ≤ 140
        ∧ ∃ rest, appendHashtags (getRandomHashtags pool coin shuffle) tweet 140
            = tweet ++ rest) := by
  rcases getRandomHashtags_shape pool coin shuffle with h | ⟨t0, h⟩ <;> rw [h] <;>
    exact ⟨⟨rfl, by simp⟩, appendHashtags_cases _ tweet maxLength,
      fun hlen => appendHashtags_bound _ tweet hlen⟩

/-- Witness for C10 on a two-character tweet and an empty hashtag
pool. -/
theorem append_hashtags_never_exceeds_witness :
    (appendHashtags (getRandomHashtags [] false id) ("やあ".toList) 140).length ≤ 140
    ∧ ∃ rest, appendHashtags (getRandomHashtags [] false id) ("やあ".toList) 140
        = "やあ".toList ++ rest :=
  (append_hashtags_never_exceeds [] false id ("やあ".toList) 140).2.2 (by decide)

/-- The post-success fields of run.ts: a run step from `old` to `new`
leaves them intact when no post was applied — the recent-post list, the
used-slot list, the daily and monthly counters, energy, the narrative
and the last-post date are unchanged, while the NG-retry and
fallback-used side-effect counters may only grow. -/
def PostFieldsIntact (old new : AgentState) : Prop :=
  new.last_posts = old.last_posts
  ∧ new.today_slots_used = old.today_slots_used
  ∧ new.today_post_count = old.today_post_count
  ∧ new.month_total_posts = old.month_total_posts
  ∧ new.month_image_posts = old.month_image_posts
  ∧ new.energy = old.energy
  ∧ new.today_narrative = old.today_narrative
  ∧ new.last_post_date = old.last_post_date
  ∧ old.ng_retry_count ≤ new.ng_retry_count
  ∧ old.fallback_used_count ≤ new.fallback_used_count

/-- Helper: intactness is reflexive. -/
theorem intact_refl (s : AgentState) : PostFieldsIntact s s :=
  ⟨rfl, rfl, rfl, rfl, rfl, rfl, rfl, rfl, le_refl _, le_refl _⟩

/-- Helper: intactness composes. -/
theorem intact_trans {a b c : AgentState}
    (h1 : PostFieldsIntact a b) (h2 : PostFieldsIntact b c) : PostFieldsIntact a c := by
  obtain ⟨p1, p2, p3, p4, p5, p6, p7, p8, p9, p10⟩ := h1
  obtain ⟨q1, q2, q3, q4, q5, q6, q7, q8, q9, q10⟩ := h2
  exact ⟨q1.trans p1, q2.trans p2, q3.trans p3, q4.trans p4, q5.trans p5,
    q6.trans p6, q7.trans p7, q8.trans p8, p9.trans q9, p10.trans q10⟩

/-- Helper: an NG-retry increment keeps the post-success fields. -/
theorem intact_ngRetry (s : AgentState) : PostFieldsIntact s (incrementNgRetry s) :=
  ⟨rfl, rfl, rfl, rfl, rfl, rfl, rfl, rfl, Nat.le_succ _, le_refl _⟩

/-- Helper: a fallback-used increment keeps the post-success fields. -/
theorem intact_fallbackUsed (s : AgentState) : PostFieldsIntact s (incrementFallbackUsed s) :=
  ⟨rfl, rfl, rfl, rfl, rfl, rfl, rfl, rfl, le_refl _, Nat.le_succ _⟩

/-- Helper: adopting the generator's mood keeps the post-success
fields. -/
theorem intact_mood (s : AgentState) (m : Mood) : PostFieldsIntact s { s with mood := m } :=
  ⟨rfl, rfl, rfl, rfl, rfl, rfl, rfl, rfl, le_refl _, le_refl _⟩

/-- Helper: the save stamp keeps the post-success fields. -/
theorem intact_saveStamp {a b : AgentState} (c : Clock)
    (h : PostFieldsIntact a b) : PostFieldsIntact a (saveStamp c b) :=
  intact_trans h ⟨rfl, rfl, rfl, rfl, rfl, rfl, rfl, rfl, le_refl _, le_refl _⟩

/-- Helper: the generation loop never touches the post-success fields —
it only adopts a mood and counts NG retries. -/
theorem genLoop_intact (cfg : Config) (gen : Nat → Option GenResult) :
    ∀ (fuel i : Nat) (s : AgentState), PostFieldsIntact s (genLoop cfg gen i fuel s).state := by
  intro fuel
  induction fuel with
  | zero => intro i s; exact intact_refl s
  | succ n ih =>
    intro i s
    simp only [genLoop]
    cases hg : gen i with
    | none =>
      simp only []
      exact ih (i + 1) s
    | some g =>
      simp only []
      split
      · exact intact_mood s g.mood
      · exact intact_trans (intact_ngRetry s) (ih (i + 1) (incrementNgRetry s))

/-- Helper: the generation phase of the run (loop when the generator is
available, nothing otherwise) keeps the post-success fields. -/
theorem genPhase_intact (cfg : Config) (gen : Nat → Option GenResult) (b : Bool)
    (st : AgentState) :
    PostFieldsIntact st
      (if b = true then genLoop cfg gen 0 (MAX_GENERATION_RETRIES + 1) st
       else ⟨st, none, 0⟩).state := by
  cases b
  · exact intact_refl st
  · exact genLoop_intact cfg gen (MAX_GENERATION_RETRIES + 1) 0 st

/-- Helper: a publish phase ending on the failure path persisted
exactly the stamped pre-publish state and exits with code 1. -/
theorem publishPhase_failed_shape (env : RunEnv) (gA : Nat) (s : AgentState)
    (text : List Char) (slot : String) (ip : Option (List Char))
    (h : (publishPhase env gA s text slot ip).path = .publishFailed) :
    (publishPhase env gA s text slot ip).saves = [saveStamp env.clock s]
    ∧ (publishPhase env gA s text slot ip).exitCode = 1 := by
  revert h
  unfold publishPhase
  split
  · intro h
    exact absurd h (by simp)
  · split
    · split_ifs <;> intro h
      · exact ⟨rfl, rfl⟩
      · exact ⟨rfl, rfl⟩
      · exact absurd h (by simp)
    · split_ifs <;> intro h
      · exact ⟨rfl, rfl⟩
      · exact absurd h (by simp)

/-- C2: whenever the run ends on the publish-failure path — the publish
step failed after a text was finalized — it persists exactly one state,
carrying the side-effect counters accrued so far but none of the
post-success fields (no new post record, no daily or monthly counter
increment, no energy change, no narrative change, no last-post date
change), and exits with the non-zero code 1. -/
theorem publish_failure_persists_counters (cfg : Config) (env : RunEnv) (st : AgentState)
    (h : (mainRun cfg env st).path = .publishFailed) :
    ∃ s, (mainRun cfg env st).saves = [s]
      ∧ (mainRun cfg env st).exitCode = 1
      ∧ PostFieldsIntact st s := by
  revert h
  simp only [mainRun]
  split
  · intro h
    exact absurd h (by simp)
  · split
    · intro h
      exact absurd h (by simp)
    · generalize hg : (if env.openAIAvailable = true
          then genLoop cfg env.gen 0 (MAX_GENERATION_RETRIES + 1) st
          else (⟨st, none, 0⟩ : GenOutcome)) = g0
      have hint : PostFieldsIntact st g0.state := by
        rw [← hg]
        exact genPhase_intact cfg env.gen env.openAIAvailable st
      split
      · intro h
        obtain ⟨hs, he⟩ := publishPhase_failed_shape _ _ _ _ _ _ h
        exact ⟨_, hs, he, intact_saveStamp env.clock hint⟩
      · split
        · intro h
          obtain ⟨hs, he⟩ := publishPhase_failed_shape _ _ _ _ _ _ h
          exact ⟨_, hs, he,
            intact_saveStamp env.clock (intact_trans hint (intact_fallbackUsed _))⟩
        · intro h
          exact absurd h (by simp)

/-- C2 witness inputs: publish credentials present but the create-post
call failing, a one-entry fallback pool, the morning hour. -/
def sampleEnvPublishFail : RunEnv :=
  { sampleEnv with
    hour := 6
    xApiAvailable := true
    publishOk := false
    fallbackPool := [("はいたつ".toList)] }

/-- C2 witness inputs: a fresh state below its quota. -/
def sampleStateFresh : AgentState := { sampleState with today_post_count := 0 }

/-- Witness for C2: a concrete run whose publish call fails persists
one state with the post-success fields intact and exits with code 1. -/
theorem publish_failure_persists_counters_witness :
    ∃ s, (mainRun sampleConfig sampleEnvPublishFail sampleStateFresh).saves = [s]
      ∧ (mainRun sampleConfig sampleEnvPublishFail sampleStateFresh).exitCode = 1
      ∧ PostFieldsIntact sampleStateFresh s :=
  publish_failure_persists_counters sampleConfig sampleEnvPublishFail sampleStateFresh
    (by decide)
